import Mathlib

/-!
# Pulse generator persistent configuration (`eeprom/shared.h`)

A shallow embedding of the configuration header of the Arduino pulse
generator: the EEPROM address map, the `SCPI` and `SCPI_LAN` records and the
routine `scpi_default` that fills an `SCPI` record with the factory settings.

Conventions of the embedding:

* `byte` fields are naturals reduced modulo `256` on every store;
* `long` fields are integers (the only values stored are `0` and `1`);
* `float` fields hold rationals; a store of a literal goes through `f32`,
  the IEEE-754 binary32 rounding (nearest, ties to even) of that literal;
* the `NCHAN`-element arrays are functions on `Fin NCHAN`, so an element
  access needs a proof that the index is below `NCHAN`.
-/

namespace Pulsegen

/-! ## Constants of the header -/

/-- Number of pulse channels (`#define NCHAN 4`). -/
abbrev NCHAN : Nat := 4

/-- Length of a stored string, null terminator included (`#define ESLEN 40`). -/
def ESLEN : Nat := 40

/-- LAN mode code (`#define LAN_OFF 0`). -/
def LAN_OFF : Nat := 0

/-- LAN mode code (`#define LAN_DHCP 1`). -/
def LAN_DHCP : Nat := 1

/-- LAN mode code (`#define LAN_STATIC 2`). -/
def LAN_STATIC : Nat := 2

/-- EEPROM address of the commit marker. -/
def EPA_COMMIT : Nat := 0

/-- EEPROM address of the `SCPI` record. -/
def EPA_SCPI : Nat := 4

/-- EEPROM address of the `SCPI_LAN` record. -/
def EPA_SCPI_LAN : Nat := 80

/-- EEPROM address of the identification string. -/
def EPA_IDN : Nat := 100

/-- EEPROM address of the reply-check string. -/
def EPA_REPLY_CHECK : Nat := 140

/-- EEPROM address of the read-only reply string. -/
def EPA_REPLY_READONLY : Nat := 180

/-- EEPROM address of the invalid-command reply string. -/
def EPA_REPLY_INVALID_CMD : Nat := 220

/-- EEPROM address of the invalid-argument reply string. -/
def EPA_REPLY_INVALID_ARG : Nat := 260

/-- EEPROM address of the reboot reply string. -/
def EPA_REPLY_REBOOT : Nat := 320

/-! ## Numeric conventions -/

/-- Value kept by a store into a `byte` (8-bit unsigned) field. -/
def toByte (v : Nat) : Nat := v % 256

/-- Round to the nearest integer, a tie going to the even neighbour. -/
def roundHalfEven (q : ℚ) : ℤ :=
  if q - ⌊q⌋ < 1 / 2 then ⌊q⌋
  else if 1 / 2 < q - ⌊q⌋ then ⌊q⌋ + 1
  else if ⌊q⌋ % 2 = 0 then ⌊q⌋
  else ⌊q⌋ + 1

/-- Binary exponent of the last mantissa bit of the binary32 numbers next to
`q`: 24 significant bits, and never below the subnormal exponent `-149`. -/
def ulpExp (q : ℚ) : ℤ := max (Int.log 2 |q| - 23) (-149)

/-- The binary32 number a finite decimal literal `q` is stored as in a
`float`: `q` is rounded to a multiple of `2 ^ ulpExp q`, nearest first and
ties to even.  On the AVR target `double` is itself binary32, so the literal
is converted in this one step.  (Literals beyond the binary32 range, which
would become an infinity, do not occur in the header.) -/
def f32 (q : ℚ) : ℚ := roundHalfEven (q / 2 ^ ulpExp q) * 2 ^ ulpExp q

/-! ## The records -/

/-- The record `struct SCPI`, field by field and in the order of the header. -/
structure SCPI where
  /-- `byte clock_src`: INTernal or EXTernal. -/
  clock_src : Nat
  /-- `float clock_freq_ext`: ideal external frequency in Hz. -/
  clock_freq_ext : ℚ
  /-- `byte trig_edge`: RISing or FALLing. -/
  trig_edge : Nat
  /-- `bool trig_rearm`: rearm after pulse sequence and on reboot. -/
  trig_rearm : Bool
  /-- `float pulse_delay[NCHAN]`: delay to first pulse in sec. -/
  pulse_delay : Fin NCHAN → ℚ
  /-- `float pulse_width[NCHAN]`: pulse width in sec. -/
  pulse_width : Fin NCHAN → ℚ
  /-- `float pulse_period[NCHAN]`: pulse period in sec. -/
  pulse_period : Fin NCHAN → ℚ
  /-- `long pulse_cycles[NCHAN]`: number of pulses. -/
  pulse_cycles : Fin NCHAN → ℤ
  /-- `bool pulse_invert[NCHAN]`: 0 = non-inverting, 1 = inverting. -/
  pulse_invert : Fin NCHAN → Bool

/-- The record `struct SCPI_LAN`. -/
structure SCPI_LAN where
  /-- `byte mode`: OFF, DHCP, or STATic. -/
  mode : Nat
  /-- `byte mac[6]`. -/
  mac : Fin 6 → Nat
  /-- `byte ip_static[4]`. -/
  ip_static : Fin 4 → Nat
  /-- `byte gateway_static[4]`. -/
  gateway_static : Fin 4 → Nat
  /-- `byte subnet_static[4]`. -/
  subnet_static : Fin 4 → Nat

/-! ## `scpi_default` -/

/-- The four stores before the loop of `scpi_default`.  `INTERNAL` and
`RISING` are the values of the two macros of those names, which the header
uses and the board support headers define. -/
def scpi_default_head (INTERNAL RISING : Nat) (s : SCPI) : SCPI :=
  { s with
    clock_src := toByte INTERNAL
    clock_freq_ext := f32 1e6
    trig_edge := toByte RISING
    trig_rearm := true }

/-- Body of the loop of `scpi_default` for the index `n`, which the loop
guard has checked to be below `NCHAN`. -/
def scpi_default_body (n : Nat) (h : n < NCHAN) (s : SCPI) : SCPI :=
  { s with
    pulse_delay := Function.update s.pulse_delay ⟨n, h⟩ (f32 0.0)
    pulse_width := Function.update s.pulse_width ⟨n, h⟩ (f32 0.01)
    pulse_period := Function.update s.pulse_period ⟨n, h⟩ (f32 0.02)
    pulse_cycles := Function.update s.pulse_cycles ⟨n, h⟩ (if n = 0 then 1 else 0)
    pulse_invert := Function.update s.pulse_invert ⟨n, h⟩ false }

/-- The loop `for (int n = ...; n < NCHAN; n++) { ... }` entered with the
counter at `n`. -/
def scpi_default_loop (n : Nat) (s : SCPI) : SCPI :=
  if h : n < NCHAN then scpi_default_loop (n + 1) (scpi_default_body n h s) else s
termination_by NCHAN - n

/-- The routine `void scpi_default(SCPI &s)`: the record after the call. -/
def scpi_default (INTERNAL RISING : Nat) (s : SCPI) : SCPI :=
  scpi_default_loop 0 (scpi_default_head INTERNAL RISING s)

/-! ## Channel validity -/

/-- Modelled from the spec: the query `is_valid(channel_index, clock_freq)` is
not part of the header, which only records the rule in a comment
("(DELAY + PERIOD*CYCLES)/FREQ must be < 4e9, otherwise the channel will not
be used (VALID = 0)").  Following the spec, a channel is valid iff
`(delay + period * cycles) / clock_freq < 4e9`, computed in a numeric domain
wide enough not to overflow before the comparison (here the rationals). -/
def is_valid (s : SCPI) (c : Fin NCHAN) (clock_freq : ℚ) : Bool :=
  decide ((s.pulse_delay c + s.pulse_period c * s.pulse_cycles c) / clock_freq < 4e9)

/-! ## Persistent layout -/

/-- The scalar types of the fields of the two persisted records. -/
inductive CType where
  | byte
  | bool
  | float
  | long
  deriving DecidableEq, Repr

/-- The fields of `struct SCPI` in declaration order: type and element count. -/
def SCPI_fields : List (CType × Nat) :=
  [(CType.byte, 1), (CType.float, 1), (CType.byte, 1), (CType.bool, 1),
   (CType.float, NCHAN), (CType.float, NCHAN), (CType.float, NCHAN),
   (CType.long, NCHAN), (CType.bool, NCHAN)]

/-- The fields of `struct SCPI_LAN` in declaration order: type and element count. -/
def SCPI_LAN_fields : List (CType × Nat) :=
  [(CType.byte, 1), (CType.byte, 6), (CType.byte, 4), (CType.byte, 4), (CType.byte, 4)]

/-- Size of a record laid out without padding, `sz` giving the size of each
scalar type. -/
def packed_size (sz : CType → Nat) (fields : List (CType × Nat)) : Nat :=
  (fields.map fun f => sz f.1 * f.2).sum

/-- The nine persisted regions as (first address, length), in the order of the
address map; `sz` is the size of each scalar type and `marker` the length of
the commit marker. -/
def regions (sz : CType → Nat) (marker : Nat) : List (Nat × Nat) :=
  [(EPA_COMMIT, marker),
   (EPA_SCPI, packed_size sz SCPI_fields),
   (EPA_SCPI_LAN, packed_size sz SCPI_LAN_fields),
   (EPA_IDN, ESLEN),
   (EPA_REPLY_CHECK, ESLEN),
   (EPA_REPLY_READONLY, ESLEN),
   (EPA_REPLY_INVALID_CMD, ESLEN),
   (EPA_REPLY_INVALID_ARG, ESLEN),
   (EPA_REPLY_REBOOT, ESLEN)]

/-- Two regions share no address. -/
def regions_disjoint (a b : Nat × Nat) : Prop :=
  a.1 + a.2 ≤ b.1 ∨ b.1 + b.2 ≤ a.1

instance (a b : Nat × Nat) : Decidable (regions_disjoint a b) := by
  unfold regions_disjoint
  infer_instance

/-- Scalar sizes of the 8-bit AVR target: `byte` and `bool` one byte, `float`
and `long` four bytes. -/
def avr_sizeof : CType → Nat
  | CType.byte => 1
  | CType.bool => 1
  | CType.float => 4
  | CType.long => 4

/-! ## The loop of `scpi_default` with its subscripts checked -/

/-- The store `a[n] = v` into an `NCHAN`-element array, `n` being a C `int`:
it is carried out when `0 <= n < NCHAN` and refused otherwise. -/
def store_at {α : Type} (a : Fin NCHAN → α) (n : ℤ) (v : α) : Option (Fin NCHAN → α) :=
  if h : 0 ≤ n ∧ n < NCHAN then
    some (Function.update a ⟨n.toNat, by omega⟩ v)
  else none

/-- Body of the loop of `scpi_default` for the counter value `n`, each of its
five stores going through `store_at`; `none` as soon as one is refused. -/
def scpi_default_body_checked (n : ℤ) (s : SCPI) : Option SCPI := do
  let delay ← store_at s.pulse_delay n (f32 0.0)
  let width ← store_at s.pulse_width n (f32 0.01)
  let period ← store_at s.pulse_period n (f32 0.02)
  let cycles ← store_at s.pulse_cycles n (if n = 0 then 1 else 0)
  let invert ← store_at s.pulse_invert n false
  pure { s with
    pulse_delay := delay
    pulse_width := width
    pulse_period := period
    pulse_cycles := cycles
    pulse_invert := invert }

/-- How a run of the loop ends. -/
inductive LoopOutcome where
  /-- The guard `n < NCHAN` failed: the record reached, the number of times
  the body ran and the subscripts used, in order. -/
  | finished (s : SCPI) (iterations : Nat) (subscripts : List ℤ)
  /-- A store with the subscript `n` fell outside its array. -/
  | out_of_bounds (n : ℤ)
  /-- The step budget ran out while the guard still held. -/
  | out_of_fuel

/-- The loop `for (int n = 0; n < NCHAN; n++) { ... }` run for at most `fuel`
iterations from the counter value `n`, counting the iterations and logging
the subscript of each of the five stores of an iteration. -/
def scpi_default_loop_checked :
    Nat → ℤ → SCPI → Nat → List ℤ → LoopOutcome
  | 0, n, s, iterations, subscripts =>
    if n < NCHAN then LoopOutcome.out_of_fuel
    else LoopOutcome.finished s iterations subscripts
  | fuel + 1, n, s, iterations, subscripts =>
    if n < NCHAN then
      match scpi_default_body_checked n s with
      | none => LoopOutcome.out_of_bounds n
      | some s1 =>
        scpi_default_loop_checked fuel (n + 1) s1 (iterations + 1)
          (subscripts ++ [n, n, n, n, n])
    else LoopOutcome.finished s iterations subscripts

/-- The routine `scpi_default` with checked subscripts, given `fuel`
iterations. -/
def scpi_default_checked (fuel : Nat) (INTERNAL RISING : Nat) (s : SCPI) : LoopOutcome :=
  scpi_default_loop_checked fuel 0 (scpi_default_head INTERNAL RISING s) 0 []

/-! ## Sample states -/

/-- A record with every byte cleared. -/
def zeroed : SCPI :=
  { clock_src := 0
    clock_freq_ext := 0
    trig_edge := 0
    trig_rearm := false
    pulse_delay := fun _ => 0
    pulse_width := fun _ => 0
    pulse_period := fun _ => 0
    pulse_cycles := fun _ => 0
    pulse_invert := fun _ => false }

/-- A cleared record whose channels all carry the given delay, period and
cycle count. -/
def with_timing (delay period : ℚ) (cycles : ℤ) : SCPI :=
  { zeroed with
    pulse_delay := fun _ => delay
    pulse_period := fun _ => period
    pulse_cycles := fun _ => cycles }

/-! ## Values of the stored literals -/

/-- The binary logarithm of a positive rational caught between two
consecutive powers of two. -/
theorem intLog_of_bounds (q : ℚ) (e : ℤ) (hq : 0 < q) (lo : (2 : ℚ) ^ e ≤ q)
    (hi : q < (2 : ℚ) ^ (e + 1)) : Int.log 2 q = e := by
  apply le_antisymm
  · have : Int.log 2 q < e + 1 := by
      rw [← Int.lt_zpow_iff_log_lt (by norm_num) hq]
      exact_mod_cast hi
    omega
  · rw [← Int.zpow_le_iff_le_log (by norm_num) hq]
    exact_mod_cast lo

/-- A rational less than half a unit above an integer rounds to it. -/
theorem roundHalfEven_of_lt (q : ℚ) (z : ℤ) (lo : (z : ℚ) ≤ q) (hi : q < z + 1 / 2) :
    roundHalfEven q = z := by
  have hf : ⌊q⌋ = z := by
    rw [Int.floor_eq_iff]
    constructor
    · exact lo
    · linarith
  unfold roundHalfEven
  rw [hf, if_pos (by linarith)]

/-- `1e6` lies in `[2 ^ 19, 2 ^ 20)`. -/
theorem ulpExp_1e6 : ulpExp 1e6 = -4 := by
  have h : Int.log 2 |(1e6 : ℚ)| = 19 := by
    rw [abs_of_pos (by norm_num)]
    exact intLog_of_bounds _ _ (by norm_num) (by norm_num) (by norm_num)
  simp [ulpExp, h]

/-- `0.01` lies in `[2 ^ (-7), 2 ^ (-6))`. -/
theorem ulpExp_0_01 : ulpExp 0.01 = -30 := by
  have h : Int.log 2 |(0.01 : ℚ)| = -7 := by
    rw [abs_of_pos (by norm_num)]
    exact intLog_of_bounds _ _ (by norm_num) (by norm_num) (by norm_num)
  simp [ulpExp, h]

/-- `0.02` lies in `[2 ^ (-6), 2 ^ (-5))`. -/
theorem ulpExp_0_02 : ulpExp 0.02 = -29 := by
  have h : Int.log 2 |(0.02 : ℚ)| = -6 := by
    rw [abs_of_pos (by norm_num)]
    exact intLog_of_bounds _ _ (by norm_num) (by norm_num) (by norm_num)
  simp [ulpExp, h]

/-- The literal `1e6` is a binary32 number. -/
theorem f32_1e6 : f32 1e6 = 1000000 := by
  unfold f32
  rw [ulpExp_1e6, roundHalfEven_of_lt _ 16000000 (by norm_num) (by norm_num)]
  norm_num

/-- The literal `0.0` is a binary32 number. -/
theorem f32_0_0 : f32 0.0 = 0 := by
  unfold f32
  norm_num [roundHalfEven]

/-- The literal `0.01` is stored as `10737418 * 2 ^ (-30)`. -/
theorem f32_0_01 : f32 0.01 = 5368709 / 536870912 := by
  unfold f32
  rw [ulpExp_0_01, roundHalfEven_of_lt _ 10737418 (by norm_num) (by norm_num)]
  norm_num

/-- The literal `0.02` is stored as `10737418 * 2 ^ (-29)`. -/
theorem f32_0_02 : f32 0.02 = 5368709 / 268435456 := by
  unfold f32
  rw [ulpExp_0_02, roundHalfEven_of_lt _ 10737418 (by norm_num) (by norm_num)]
  norm_num

/-! ## The record left by `scpi_default` -/

/-- One unfolding of the loop while the guard holds. -/
theorem scpi_default_loop_step (n : Nat) (h : n < NCHAN) (s : SCPI) :
    scpi_default_loop n s = scpi_default_loop (n + 1) (scpi_default_body n h s) := by
  rw [scpi_default_loop, dif_pos h]

/-- The loop is left as soon as the guard fails. -/
theorem scpi_default_loop_exit (n : Nat) (h : ¬ n < NCHAN) (s : SCPI) :
    scpi_default_loop n s = s := by
  rw [scpi_default_loop, dif_neg h]

/-- The loop runs the body for `0`, `1`, `2`, `3` in turn and stops. -/
theorem scpi_default_unrolled (INTERNAL RISING : Nat) (s : SCPI) :
    scpi_default INTERNAL RISING s =
      scpi_default_body 3 (by decide) (scpi_default_body 2 (by decide)
        (scpi_default_body 1 (by decide) (scpi_default_body 0 (by decide)
          (scpi_default_head INTERNAL RISING s)))) := by
  unfold scpi_default
  rw [scpi_default_loop_step 0 (by decide), scpi_default_loop_step 1 (by decide),
    scpi_default_loop_step 2 (by decide), scpi_default_loop_step 3 (by decide),
    scpi_default_loop_exit 4 (by decide)]

/-- Every field of the record after `scpi_default`, in closed form. -/
theorem scpi_default_eq (INTERNAL RISING : Nat) (s : SCPI) :
    scpi_default INTERNAL RISING s =
      { clock_src := toByte INTERNAL
        clock_freq_ext := f32 1e6
        trig_edge := toByte RISING
        trig_rearm := true
        pulse_delay := fun _ => f32 0.0
        pulse_width := fun _ => f32 0.01
        pulse_period := fun _ => f32 0.02
        pulse_cycles := fun n => if n.val = 0 then 1 else 0
        pulse_invert := fun _ => false } := by
  rw [scpi_default_unrolled]
  simp only [scpi_default_body, scpi_default_head, SCPI.mk.injEq, true_and]
  refine ⟨?_, ?_, ?_, ?_, ?_⟩ <;> funext n <;> fin_cases n <;> simp [Function.update, Fin.ext_iff]

/-! ## The factory settings -/

/-- C1: after `scpi_default`, every channel `n` has `pulse_delay[n] = 0`,
`pulse_width[n]` the float `0.01`, `pulse_period[n]` the float `0.02`,
`pulse_invert[n] = false` and `pulse_cycles[n] = 1` for `n = 0` and `0`
otherwise; channel 0 is the only channel with `pulse_cycles > 0`. -/
theorem scpi_default_pulse_settings (INTERNAL RISING : Nat) (s : SCPI) (n : Fin NCHAN) :
    (scpi_default INTERNAL RISING s).pulse_delay n = 0 ∧
    (scpi_default INTERNAL RISING s).pulse_width n = f32 0.01 ∧
    (scpi_default INTERNAL RISING s).pulse_period n = f32 0.02 ∧
    (scpi_default INTERNAL RISING s).pulse_invert n = false ∧
    (scpi_default INTERNAL RISING s).pulse_cycles n = (if n.val = 0 then 1 else 0) ∧
    (0 < (scpi_default INTERNAL RISING s).pulse_cycles n ↔ n.val = 0) := by
  rw [scpi_default_eq]
  refine ⟨f32_0_0, rfl, rfl, rfl, rfl, ?_⟩
  by_cases h : n.val = 0 <;> simp [h]

/-- C2: the EEPROM address map is commit marker 0, `SCPI` 4, `SCPI_LAN` 80,
identification 100, reply-check 140, reply-readonly 180, reply-invalid-cmd
220, reply-invalid-arg 260, reply-reboot 320, strictly increasing in that
order. -/
theorem address_map :
    (EPA_COMMIT = 0 ∧ EPA_SCPI = 4 ∧ EPA_SCPI_LAN = 80 ∧ EPA_IDN = 100 ∧
      EPA_REPLY_CHECK = 140 ∧ EPA_REPLY_READONLY = 180 ∧ EPA_REPLY_INVALID_CMD = 220 ∧
      EPA_REPLY_INVALID_ARG = 260 ∧ EPA_REPLY_REBOOT = 320) ∧
    List.Chain' (· < ·)
      [EPA_COMMIT, EPA_SCPI, EPA_SCPI_LAN, EPA_IDN, EPA_REPLY_CHECK, EPA_REPLY_READONLY,
        EPA_REPLY_INVALID_CMD, EPA_REPLY_INVALID_ARG, EPA_REPLY_REBOOT] := by
  refine ⟨⟨rfl, rfl, rfl, rfl, rfl, rfl, rfl, rfl, rfl⟩, ?_⟩
  simp [EPA_COMMIT, EPA_SCPI, EPA_SCPI_LAN, EPA_IDN, EPA_REPLY_CHECK, EPA_REPLY_READONLY,
    EPA_REPLY_INVALID_CMD, EPA_REPLY_INVALID_ARG, EPA_REPLY_REBOOT]

/-- C3: after `scpi_default`, every channel `c` meets the documented validity
rule at a clock frequency of `1e6`:
`(pulse_delay[c] + pulse_period[c] * pulse_cycles[c]) / 1e6 < 4e9`; and `1e6`
is the `clock_freq_ext` that `scpi_default` stores. -/
theorem scpi_default_valid_at_1e6 (INTERNAL RISING : Nat) (s : SCPI) (c : Fin NCHAN) :
    ((scpi_default INTERNAL RISING s).pulse_delay c +
        (scpi_default INTERNAL RISING s).pulse_period c *
          (scpi_default INTERNAL RISING s).pulse_cycles c) / 1e6 < 4e9 ∧
    (scpi_default INTERNAL RISING s).clock_freq_ext = 1e6 := by
  rw [scpi_default_eq]
  simp only [f32_0_0, f32_0_02, f32_1e6]
  constructor
  · by_cases h : c.val = 0 <;> simp [h] <;> norm_num
  · norm_num

/-! ## The validity rule -/

/-- C4: for non-negative delay, period and cycles and a positive clock
frequency, `is_valid` is false if and only if
`(delay + period * cycles) / clock_freq >= 4e9`; at exactly `4e9` the channel
is invalid and anywhere strictly below `4e9` it is valid. -/
theorem is_valid_false_iff (s : SCPI) (c : Fin NCHAN) (clock_freq : ℚ)
    (_hd : 0 ≤ s.pulse_delay c) (_hp : 0 ≤ s.pulse_period c) (_hc : 0 ≤ s.pulse_cycles c)
    (_hf : 0 < clock_freq) :
    (is_valid s c clock_freq = false ↔
      (s.pulse_delay c + s.pulse_period c * s.pulse_cycles c) / clock_freq ≥ 4e9) ∧
    ((s.pulse_delay c + s.pulse_period c * s.pulse_cycles c) / clock_freq = 4e9 →
      is_valid s c clock_freq = false) ∧
    ((s.pulse_delay c + s.pulse_period c * s.pulse_cycles c) / clock_freq < 4e9 →
      is_valid s c clock_freq = true) := by
  unfold is_valid
  refine ⟨?_, ?_, ?_⟩
  · rw [decide_eq_false_iff_not, not_lt]
  · intro h
    rw [decide_eq_false_iff_not, not_lt, h]
  · intro h
    exact decide_eq_true h

/-- C4 at the boundary: delay `4e9`, one cycle of period `0`, clock `1`. -/
theorem is_valid_false_iff_witness :
    (0 : ℚ) ≤ (with_timing 4e9 0 1).pulse_delay 0 ∧
    (0 : ℚ) ≤ (with_timing 4e9 0 1).pulse_period 0 ∧
    (0 : ℤ) ≤ (with_timing 4e9 0 1).pulse_cycles 0 ∧
    (0 : ℚ) < 1 ∧
    ((is_valid (with_timing 4e9 0 1) 0 1 = false ↔
      ((with_timing 4e9 0 1).pulse_delay 0 +
        (with_timing 4e9 0 1).pulse_period 0 * (with_timing 4e9 0 1).pulse_cycles 0) / 1
          ≥ 4e9) ∧
    (((with_timing 4e9 0 1).pulse_delay 0 +
        (with_timing 4e9 0 1).pulse_period 0 * (with_timing 4e9 0 1).pulse_cycles 0) / 1
          = 4e9 → is_valid (with_timing 4e9 0 1) 0 1 = false) ∧
    (((with_timing 4e9 0 1).pulse_delay 0 +
        (with_timing 4e9 0 1).pulse_period 0 * (with_timing 4e9 0 1).pulse_cycles 0) / 1
          < 4e9 → is_valid (with_timing 4e9 0 1) 0 1 = true)) :=
  ⟨by norm_num [with_timing], by norm_num [with_timing], by norm_num [with_timing], by simp,
    is_valid_false_iff (with_timing 4e9 0 1) 0 1 (by norm_num [with_timing])
      (by norm_num [with_timing]) (by norm_num [with_timing]) (by simp)⟩

/-- C5, as stated, fails: with `cycles = 0`, period `0.02`, delay `4e9` and
clock frequency `1` the formula gives exactly `4e9`, so the channel is
invalid. -/
theorem zero_cycles_invalid_example :
    (with_timing 4e9 0.02 0).pulse_cycles 0 = 0 ∧
    (0 : ℚ) ≤ (with_timing 4e9 0.02 0).pulse_delay 0 ∧
    (0 : ℚ) ≤ (with_timing 4e9 0.02 0).pulse_period 0 ∧
    (0 : ℚ) < 1 ∧
    is_valid (with_timing 4e9 0.02 0) 0 1 = false := by
  refine ⟨rfl, ?_, ?_, by norm_num, ?_⟩ <;> norm_num [with_timing, is_valid]

/-- C5, amended: for a channel with `cycles = 0`, a non-negative delay and
period and a positive clock frequency, `is_valid` is true if and only if
`delay / clock_freq < 4e9`; the period has no influence. -/
theorem is_valid_zero_cycles (s : SCPI) (c : Fin NCHAN) (clock_freq : ℚ)
    (hc : s.pulse_cycles c = 0) (_hd : 0 ≤ s.pulse_delay c) (_hp : 0 ≤ s.pulse_period c)
    (_hf : 0 < clock_freq) :
    is_valid s c clock_freq = true ↔ s.pulse_delay c / clock_freq < 4e9 := by
  unfold is_valid
  rw [hc, decide_eq_true_iff]
  simp

/-- C5 amended, at the default channel 1 timing (`cycles = 0`) and clock `1e6`. -/
theorem is_valid_zero_cycles_witness :
    (with_timing 0 0.02 0).pulse_cycles 1 = 0 ∧
    (0 : ℚ) ≤ (with_timing 0 0.02 0).pulse_delay 1 ∧
    (0 : ℚ) ≤ (with_timing 0 0.02 0).pulse_period 1 ∧
    (0 : ℚ) < 1e6 ∧
    (is_valid (with_timing 0 0.02 0) 1 1e6 = true ↔
      (with_timing 0 0.02 0).pulse_delay 1 / 1e6 < 4e9) :=
  ⟨rfl, by norm_num [with_timing], by norm_num [with_timing], by norm_num,
    is_valid_zero_cycles (with_timing 0 0.02 0) 1 1e6 rfl (by norm_num [with_timing])
      (by norm_num [with_timing]) (by norm_num)⟩

/-- C6, as stated, fails: with `period = 0`, `cycles = 1`, delay `4e9` and
clock frequency `1` the formula evaluates to `4e9`, not to `0`, and the
channel is invalid. -/
theorem zero_period_invalid_example :
    (with_timing 4e9 0 1).pulse_period 2 = 0 ∧
    0 < (with_timing 4e9 0 1).pulse_cycles 2 ∧
    (0 : ℚ) ≤ (with_timing 4e9 0 1).pulse_delay 2 ∧
    (0 : ℚ) < 1 ∧
    ((with_timing 4e9 0 1).pulse_delay 2 +
      (with_timing 4e9 0 1).pulse_period 2 * (with_timing 4e9 0 1).pulse_cycles 2) / 1 ≠ 0 ∧
    is_valid (with_timing 4e9 0 1) 2 1 = false := by
  refine ⟨rfl, ?_, ?_, by norm_num, ?_, ?_⟩ <;> norm_num [with_timing, is_valid]

/-- C6, amended: for a channel with `period = 0` and `cycles > 0`, a
non-negative delay and a positive clock frequency, the validity formula
evaluates to `delay / clock_freq`, and the channel is valid if and only if
that is below `4e9`; with `delay = 0` the formula is `0` and the channel is
valid. -/
theorem is_valid_zero_period (s : SCPI) (c : Fin NCHAN) (clock_freq : ℚ)
    (hp : s.pulse_period c = 0) (_hc : 0 < s.pulse_cycles c) (_hd : 0 ≤ s.pulse_delay c)
    (_hf : 0 < clock_freq) :
    (s.pulse_delay c + s.pulse_period c * s.pulse_cycles c) / clock_freq =
        s.pulse_delay c / clock_freq ∧
    (is_valid s c clock_freq = true ↔ s.pulse_delay c / clock_freq < 4e9) ∧
    (s.pulse_delay c = 0 →
      (s.pulse_delay c + s.pulse_period c * s.pulse_cycles c) / clock_freq = 0 ∧
      is_valid s c clock_freq = true) := by
  unfold is_valid
  rw [hp, zero_mul, add_zero, decide_eq_true_iff]
  refine ⟨rfl, Iff.rfl, ?_⟩
  intro h0
  rw [h0, zero_div]
  exact ⟨rfl, by norm_num⟩

/-- C6 amended, at delay `0`, period `0`, three cycles and clock `1e6`. -/
theorem is_valid_zero_period_witness :
    (with_timing 0 0 3).pulse_period 0 = 0 ∧
    0 < (with_timing 0 0 3).pulse_cycles 0 ∧
    (0 : ℚ) ≤ (with_timing 0 0 3).pulse_delay 0 ∧
    (0 : ℚ) < 1e6 ∧
    (((with_timing 0 0 3).pulse_delay 0 +
        (with_timing 0 0 3).pulse_period 0 * (with_timing 0 0 3).pulse_cycles 0) / 1e6 =
        (with_timing 0 0 3).pulse_delay 0 / 1e6 ∧
    (is_valid (with_timing 0 0 3) 0 1e6 = true ↔
      (with_timing 0 0 3).pulse_delay 0 / 1e6 < 4e9) ∧
    ((with_timing 0 0 3).pulse_delay 0 = 0 →
      ((with_timing 0 0 3).pulse_delay 0 +
        (with_timing 0 0 3).pulse_period 0 * (with_timing 0 0 3).pulse_cycles 0) / 1e6 = 0 ∧
      is_valid (with_timing 0 0 3) 0 1e6 = true)) :=
  ⟨rfl, by norm_num [with_timing], by norm_num [with_timing], by norm_num,
    is_valid_zero_period (with_timing 0 0 3) 0 1e6 rfl (by norm_num [with_timing])
      (by norm_num [with_timing]) (by norm_num)⟩

/-! ## Domain constraints and independence of the prior state -/

/-- C7: after `scpi_default` every documented field constraint holds:
`0 < clock_freq_ext <= 5e6`, and for every channel `n` the delay, width,
period and cycle count are non-negative. -/
theorem scpi_default_in_domain (INTERNAL RISING : Nat) (s : SCPI) :
    0 < (scpi_default INTERNAL RISING s).clock_freq_ext ∧
    (scpi_default INTERNAL RISING s).clock_freq_ext ≤ 5e6 ∧
    ∀ n : Fin NCHAN,
      0 ≤ (scpi_default INTERNAL RISING s).pulse_delay n ∧
      0 ≤ (scpi_default INTERNAL RISING s).pulse_width n ∧
      0 ≤ (scpi_default INTERNAL RISING s).pulse_period n ∧
      0 ≤ (scpi_default INTERNAL RISING s).pulse_cycles n := by
  rw [scpi_default_eq]
  simp only [f32_0_0, f32_0_01, f32_0_02, f32_1e6]
  refine ⟨by norm_num, by norm_num, fun n => ⟨le_refl _, by norm_num, by norm_num, ?_⟩⟩
  by_cases h : n.val = 0 <;> simp [h]

/-- C8: `scpi_default` assigns every field of the record, so the record it
leaves does not depend on the one it was given: any two prior states give the
same result, and running it twice is the same as running it once. -/
theorem scpi_default_ignores_prior (INTERNAL RISING : Nat) :
    (∀ s1 s2 : SCPI, scpi_default INTERNAL RISING s1 = scpi_default INTERNAL RISING s2) ∧
    (∀ s : SCPI,
      scpi_default INTERNAL RISING (scpi_default INTERNAL RISING s) =
        scpi_default INTERNAL RISING s) := by
  constructor
  · intro s1 s2
    rw [scpi_default_eq, scpi_default_eq]
  · intro s
    rw [scpi_default_eq INTERNAL RISING (scpi_default INTERNAL RISING s), scpi_default_eq]

/-! ## Non-overlap of the persisted regions -/

/-- C9: with `byte` and `bool` of one byte, `float` and `long` of four bytes, no
padding, a 4-byte commit marker and string regions of `ESLEN = 40` bytes, the
nine persisted regions are pairwise disjoint: `SCPI` takes 75 bytes, `[4,79)`,
ending before `EPA_SCPI_LAN = 80`; `SCPI_LAN` takes 19 bytes, `[80,99)`, ending
before `EPA_IDN = 100`; and each string region `[EPA_x, EPA_x + 40)` ends at or
before the next region's address. -/
theorem regions_pairwise_disjoint (sz : CType → Nat) (marker : Nat)
    (hbyte : sz CType.byte = 1) (hbool : sz CType.bool = 1)
    (hfloat : sz CType.float = 4) (hlong : sz CType.long = 4) (hmarker : marker = 4) :
    (packed_size sz SCPI_fields = 75 ∧
      EPA_SCPI + packed_size sz SCPI_fields = 79 ∧
      EPA_SCPI + packed_size sz SCPI_fields < EPA_SCPI_LAN) ∧
    (packed_size sz SCPI_LAN_fields = 19 ∧
      EPA_SCPI_LAN + packed_size sz SCPI_LAN_fields = 99 ∧
      EPA_SCPI_LAN + packed_size sz SCPI_LAN_fields < EPA_IDN) ∧
    (EPA_IDN + ESLEN ≤ EPA_REPLY_CHECK ∧
      EPA_REPLY_CHECK + ESLEN ≤ EPA_REPLY_READONLY ∧
      EPA_REPLY_READONLY + ESLEN ≤ EPA_REPLY_INVALID_CMD ∧
      EPA_REPLY_INVALID_CMD + ESLEN ≤ EPA_REPLY_INVALID_ARG ∧
      EPA_REPLY_INVALID_ARG + ESLEN ≤ EPA_REPLY_REBOOT) ∧
    List.Pairwise regions_disjoint (regions sz marker) := by
  have hs : packed_size sz SCPI_fields = 75 := by
    simp [packed_size, SCPI_fields, NCHAN, hbyte, hbool, hfloat, hlong]
  have hl : packed_size sz SCPI_LAN_fields = 19 := by
    simp [packed_size, SCPI_LAN_fields, hbyte]
  refine ⟨⟨hs, ?_, ?_⟩, ⟨hl, ?_, ?_⟩, ?_, ?_⟩
  · rw [hs]; rfl
  · rw [hs]; decide
  · rw [hl]; rfl
  · rw [hl]; decide
  · decide
  · unfold regions
    rw [hs, hl, hmarker]
    decide

/-- C9 at the sizes of the AVR target. -/
theorem regions_pairwise_disjoint_witness :
    avr_sizeof CType.byte = 1 ∧ avr_sizeof CType.bool = 1 ∧
    avr_sizeof CType.float = 4 ∧ avr_sizeof CType.long = 4 ∧ (4 : Nat) = 4 ∧
    ((packed_size avr_sizeof SCPI_fields = 75 ∧
      EPA_SCPI + packed_size avr_sizeof SCPI_fields = 79 ∧
      EPA_SCPI + packed_size avr_sizeof SCPI_fields < EPA_SCPI_LAN) ∧
    (packed_size avr_sizeof SCPI_LAN_fields = 19 ∧
      EPA_SCPI_LAN + packed_size avr_sizeof SCPI_LAN_fields = 99 ∧
      EPA_SCPI_LAN + packed_size avr_sizeof SCPI_LAN_fields < EPA_IDN) ∧
    (EPA_IDN + ESLEN ≤ EPA_REPLY_CHECK ∧
      EPA_REPLY_CHECK + ESLEN ≤ EPA_REPLY_READONLY ∧
      EPA_REPLY_READONLY + ESLEN ≤ EPA_REPLY_INVALID_CMD ∧
      EPA_REPLY_INVALID_CMD + ESLEN ≤ EPA_REPLY_INVALID_ARG ∧
      EPA_REPLY_INVALID_ARG + ESLEN ≤ EPA_REPLY_REBOOT) ∧
    List.Pairwise regions_disjoint (regions avr_sizeof 4)) :=
  ⟨rfl, rfl, rfl, rfl, rfl, regions_pairwise_disjoint avr_sizeof 4 rfl rfl rfl rfl rfl⟩

/-! ## Clock and trigger settings -/

/-- C10: after `scpi_default`, `clock_src = INTERNAL`, `clock_freq_ext = 1e6`,
`trig_edge = RISING` and `trig_rearm = true`, the two macros `INTERNAL` and
`RISING` having values that fit the `byte` fields they are stored in. -/
theorem scpi_default_clock_trigger (INTERNAL RISING : Nat) (s : SCPI)
    (hI : INTERNAL < 256) (hR : RISING < 256) :
    (scpi_default INTERNAL RISING s).clock_src = INTERNAL ∧
    (scpi_default INTERNAL RISING s).clock_freq_ext = 1e6 ∧
    (scpi_default INTERNAL RISING s).trig_edge = RISING ∧
    (scpi_default INTERNAL RISING s).trig_rearm = true := by
  rw [scpi_default_eq]
  refine ⟨Nat.mod_eq_of_lt hI, ?_, Nat.mod_eq_of_lt hR, rfl⟩
  simp only [f32_1e6]
  norm_num

/-- C10 with both macros equal to `3` (their values on the AVR boards),
starting from a cleared record. -/
theorem scpi_default_clock_trigger_witness :
    (3 : Nat) < 256 ∧ (3 : Nat) < 256 ∧
    ((scpi_default 3 3 zeroed).clock_src = 3 ∧
    (scpi_default 3 3 zeroed).clock_freq_ext = 1e6 ∧
    (scpi_default 3 3 zeroed).trig_edge = 3 ∧
    (scpi_default 3 3 zeroed).trig_rearm = true) :=
  ⟨by decide, by decide, scpi_default_clock_trigger 3 3 zeroed (by decide) (by decide)⟩

/-! ## Pulse shape of the factory settings -/

/-- C11: after `scpi_default` no channel is in continuous mode: for every
channel `n`, `pulse_width[n] > pulse_period[n]` is false, the width `0.01`
being below the period `0.02`. -/
theorem scpi_default_not_continuous (INTERNAL RISING : Nat) (s : SCPI) (n : Fin NCHAN) :
    (scpi_default INTERNAL RISING s).pulse_width n <
        (scpi_default INTERNAL RISING s).pulse_period n ∧
    ¬ ((scpi_default INTERNAL RISING s).pulse_width n >
        (scpi_default INTERNAL RISING s).pulse_period n) := by
  rw [scpi_default_eq]
  simp only [f32_0_01, f32_0_02]
  constructor <;> norm_num

/-! ## Termination and subscripts of the loop -/

/-- An in-range store through `store_at` is the plain array update. -/
theorem store_at_in_range {α : Type} (a : Fin NCHAN → α) (n : Nat) (h : n < NCHAN) (v : α) :
    store_at a (n : ℤ) v = some (Function.update a ⟨n, h⟩ v) := by
  unfold store_at
  rw [dif_pos ⟨by omega, by omega⟩]
  rfl

/-- For a counter value below `NCHAN` the checked body succeeds and is the
body of `scpi_default`. -/
theorem scpi_default_body_checked_in_range (n : Nat) (h : n < NCHAN) (s : SCPI) :
    scpi_default_body_checked (n : ℤ) s = some (scpi_default_body n h s) := by
  unfold scpi_default_body_checked
  simp only [store_at_in_range _ n h, Option.bind_eq_bind, Option.some_bind, Option.pure_def]
  unfold scpi_default_body
  congr 2
  norm_cast

/-- One iteration of the checked loop while the guard holds and fuel is left. -/
theorem scpi_default_loop_checked_step (fuel n : Nat) (h : n < NCHAN) (s : SCPI)
    (iterations : Nat) (subscripts : List ℤ) :
    scpi_default_loop_checked (fuel + 1) (n : ℤ) s iterations subscripts =
      scpi_default_loop_checked fuel ((n + 1 : Nat) : ℤ) (scpi_default_body n h s)
        (iterations + 1) (subscripts ++ [(n : ℤ), (n : ℤ), (n : ℤ), (n : ℤ), (n : ℤ)]) := by
  rw [scpi_default_loop_checked, if_pos (by exact_mod_cast h),
    scpi_default_body_checked_in_range n h]
  norm_cast

/-- The checked loop stops as soon as the guard fails, whatever fuel is left. -/
theorem scpi_default_loop_checked_exit (fuel : Nat) (n : ℤ) (h : ¬ n < NCHAN) (s : SCPI)
    (iterations : Nat) (subscripts : List ℤ) :
    scpi_default_loop_checked fuel n s iterations subscripts =
      LoopOutcome.finished s iterations subscripts := by
  cases fuel <;> rw [scpi_default_loop_checked, if_neg h]

/-- Without fuel the checked loop cannot run an iteration the guard asks for. -/
theorem scpi_default_loop_checked_starved (n : ℤ) (h : n < NCHAN) (s : SCPI)
    (iterations : Nat) (subscripts : List ℤ) :
    scpi_default_loop_checked 0 n s iterations subscripts = LoopOutcome.out_of_fuel := by
  rw [scpi_default_loop_checked, if_pos h]

/-- With fuel for `NCHAN` iterations or more, the checked run ends by the
guard after exactly `NCHAN` iterations, on the record of `scpi_default`, having
used the subscripts `0, 1, 2, 3` five times each. -/
theorem scpi_default_checked_finished (INTERNAL RISING : Nat) (s : SCPI) (k : Nat) :
    scpi_default_checked (NCHAN + k) INTERNAL RISING s =
      LoopOutcome.finished (scpi_default INTERNAL RISING s) NCHAN
        [0, 0, 0, 0, 0, 1, 1, 1, 1, 1, 2, 2, 2, 2, 2, 3, 3, 3, 3, 3] := by
  have e : NCHAN + k = k + 1 + 1 + 1 + 1 := by
    show 4 + k = k + 1 + 1 + 1 + 1
    omega
  rw [scpi_default_unrolled, e]
  unfold scpi_default_checked
  have h := scpi_default_loop_checked_step (k + 1 + 1 + 1) 0 (by decide)
    (scpi_default_head INTERNAL RISING s) 0 []
  rw [Nat.cast_zero] at h
  rw [h, scpi_default_loop_checked_step (k + 1 + 1) (0 + 1) (by decide),
    scpi_default_loop_checked_step (k + 1) (0 + 1 + 1) (by decide),
    scpi_default_loop_checked_step k (0 + 1 + 1 + 1) (by decide),
    scpi_default_loop_checked_exit k _ (by decide)]
  rfl

/-- With fuel for fewer than `NCHAN` iterations the checked run is cut short
while the guard still holds. -/
theorem scpi_default_checked_starved (INTERNAL RISING : Nat) (s : SCPI) (fuel : Fin NCHAN) :
    scpi_default_checked fuel.val INTERNAL RISING s = LoopOutcome.out_of_fuel := by
  unfold scpi_default_checked
  have h3 := scpi_default_loop_checked_step 2 0 (by decide)
    (scpi_default_head INTERNAL RISING s) 0 []
  have h2 := scpi_default_loop_checked_step 1 0 (by decide)
    (scpi_default_head INTERNAL RISING s) 0 []
  have h1 := scpi_default_loop_checked_step 0 0 (by decide)
    (scpi_default_head INTERNAL RISING s) 0 []
  rw [Nat.cast_zero] at h1 h2 h3
  fin_cases fuel
  · exact scpi_default_loop_checked_starved 0 (by decide) _ _ _
  · show scpi_default_loop_checked (0 + 1) 0 _ 0 [] = _
    rw [h1]
    exact scpi_default_loop_checked_starved _ (by decide) _ _ _
  · show scpi_default_loop_checked (1 + 1) 0 _ 0 [] = _
    rw [h2, scpi_default_loop_checked_step 0 (0 + 1) (by decide)]
    exact scpi_default_loop_checked_starved _ (by decide) _ _ _
  · show scpi_default_loop_checked (2 + 1) 0 _ 0 [] = _
    rw [h3, scpi_default_loop_checked_step 1 (0 + 1) (by decide),
      scpi_default_loop_checked_step 0 (0 + 1 + 1) (by decide)]
    exact scpi_default_loop_checked_starved _ (by decide) _ _ _

/-- C12: the loop of `scpi_default` terminates after exactly `NCHAN = 4`
iterations (with fuel for `NCHAN` iterations or more it ends by its guard
having run the body `NCHAN` times, with less it is cut short), every subscript
it uses lies in `0 .. NCHAN - 1`, and for no input state and no fuel does a
store fall outside its array. -/
theorem scpi_default_loop_in_bounds (INTERNAL RISING : Nat) (s : SCPI) (k : Nat) :
    scpi_default_checked (NCHAN + k) INTERNAL RISING s =
      LoopOutcome.finished (scpi_default INTERNAL RISING s) NCHAN
        [0, 0, 0, 0, 0, 1, 1, 1, 1, 1, 2, 2, 2, 2, 2, 3, 3, 3, 3, 3] ∧
    (([0, 0, 0, 0, 0, 1, 1, 1, 1, 1, 2, 2, 2, 2, 2, 3, 3, 3, 3, 3] : List ℤ).all
      fun n => decide (0 ≤ n ∧ n < (NCHAN : ℤ))) = true ∧
    (∀ fuel : Fin NCHAN,
      scpi_default_checked fuel.val INTERNAL RISING s = LoopOutcome.out_of_fuel) ∧
    (∀ (fuel : Nat) (n : ℤ),
      scpi_default_checked fuel INTERNAL RISING s ≠ LoopOutcome.out_of_bounds n) := by
  refine ⟨scpi_default_checked_finished INTERNAL RISING s k, by decide,
    scpi_default_checked_starved INTERNAL RISING s, ?_⟩
  intro fuel n
  by_cases h : fuel < NCHAN
  · rw [scpi_default_checked_starved INTERNAL RISING s ⟨fuel, h⟩]
    exact LoopOutcome.noConfusion
  · have e : fuel = NCHAN + (fuel - NCHAN) := by omega
    rw [e, scpi_default_checked_finished]
    exact LoopOutcome.noConfusion

/-! ## LAN mode codes -/

/-- C13: the LAN mode codes are `LAN_OFF = 0`, `LAN_DHCP = 1` and
`LAN_STATIC = 2`; they are pairwise distinct, each fits the one-byte field
`SCPI_LAN.mode` (it is below 256 and a store into a `byte` keeps it), and so
a stored mode matches at most one of the three codes. -/
theorem lan_mode_codes :
    (LAN_OFF = 0 ∧ LAN_DHCP = 1 ∧ LAN_STATIC = 2) ∧
    (LAN_OFF ≠ LAN_DHCP ∧ LAN_OFF ≠ LAN_STATIC ∧ LAN_DHCP ≠ LAN_STATIC) ∧
    (LAN_OFF < 256 ∧ LAN_DHCP < 256 ∧ LAN_STATIC < 256) ∧
    (toByte LAN_OFF = LAN_OFF ∧ toByte LAN_DHCP = LAN_DHCP ∧
      toByte LAN_STATIC = LAN_STATIC) ∧
    (∀ l : SCPI_LAN,
      List.count l.mode [toByte LAN_OFF, toByte LAN_DHCP, toByte LAN_STATIC] ≤ 1) := by
  refine ⟨⟨rfl, rfl, rfl⟩, by decide, by decide, ⟨rfl, rfl, rfl⟩, ?_⟩
  intro l
  have nd : List.Nodup [toByte LAN_OFF, toByte LAN_DHCP, toByte LAN_STATIC] := by decide
  exact List.nodup_iff_count_le_one.mp nd l.mode

end Pulsegen
